import Mathlib

/-!
Verification development for the S.C.O.P.E. content-safety pipeline.

Shallow embedding of the backend components referenced by the claims:
`constitutional_ai.py` (principle rule engine, constitutional validator,
receipt audit log, `constitutional_guard` decorator), `harm_detection.py`
(`LLMHarmDetector.scan_report` with its conservative fallbacks), and
`review_queue.py` (`ReviewQueueManager` submission routing and the
reviewer-decision state machine).

Python strings become Lean `String`; Python `x in s` substring tests,
`str.lower`, `str.split`, `str.strip` and slicing are modelled below as
executable functions on the underlying character lists; `dict.get(k, d)`
lookups on judge verdicts become `Option` fields with `Option.getD`;
`datetime.utcnow()` values are passed in as explicit parameters; the
`hashlib` digests used for receipts are implemented over `Nat` with
explicit `% 2 ^ 32` wrap-around.
-/

namespace Scope

/-! ## String primitives (models of the Python string operations used) -/

/-- Model of Python substring containment `needle in hay` on character
lists: true when `needle` occurs contiguously in `hay`. -/
def subListIn (needle : List Char) : List Char → Bool
  | [] => needle.isEmpty
  | c :: t => needle.isPrefixOf (c :: t) || subListIn needle t

/-- Model of Python `needle in hay` for strings. -/
def strIn (needle hay : String) : Bool :=
  subListIn needle.data hay.data

/-- Model of Python `str.lower()` (ASCII case folding, which covers every
pattern the checkers use). -/
def lowerStr (s : String) : String :=
  String.mk (s.data.map Char.toLower)

/-- Model of Python `str.upper()`. -/
def upperStr (s : String) : String :=
  String.mk (s.data.map Char.toUpper)

/-- Model of Python slicing `s[:n]` (by code point). -/
def strTake (s : String) (n : Nat) : String :=
  String.mk (s.data.take n)

/-- Characters stripped by Python `str.strip()` with no argument. -/
def isPyWhitespace (c : Char) : Bool :=
  c = ' ' || c = '\t' || c = '\n' || c = '\r' || c = '\x0b' || c = '\x0c'

/-- Model of Python `str.strip()`. -/
def stripStr (s : String) : String :=
  String.mk (((s.data.dropWhile isPyWhitespace).reverse.dropWhile isPyWhitespace).reverse)

/-- Characters of `l` before the first occurrence of `sep`; all of `l`
when `sep` does not occur.  This is `l.split(sep)[0]`. -/
def takeUntilSep (sep : List Char) : List Char → List Char
  | [] => []
  | c :: t => if sep.isPrefixOf (c :: t) then [] else c :: takeUntilSep sep t

/-- Characters of `l` after the first occurrence of `sep` (empty when
`sep` does not occur). -/
def afterFirstSep (sep : List Char) : List Char → List Char
  | [] => []
  | c :: t => if sep.isPrefixOf (c :: t) then (c :: t).drop sep.length else afterFirstSep sep t

/-- Model of Python `s.split(sep)[1]` under the guarantee that `sep`
occurs in `s`: the segment between the first occurrence of `sep` and the
following occurrence (or the end of the string). -/
def segmentAfterFirst (sep : List Char) (l : List Char) : List Char :=
  takeUntilSep sep (afterFirstSep sep l)

/-! ## Byte-level helpers for the `hashlib` digests -/

/-- UTF-8 encoding of a single code point, as `Nat` byte values
(model of Python `str.encode()` per character). -/
def utf8Bytes (c : Char) : List Nat :=
  let n := c.toNat
  if n < 0x80 then [n]
  else if n < 0x800 then
    [0xC0 + n / 64, 0x80 + n % 64]
  else if n < 0x10000 then
    [0xE0 + n / 4096, 0x80 + (n / 64) % 64, 0x80 + n % 64]
  else
    [0xF0 + n / 262144, 0x80 + (n / 4096) % 64, 0x80 + (n / 64) % 64, 0x80 + n % 64]

/-- Model of Python `str.encode()` (UTF-8 bytes of the whole string). -/
def strBytes (s : String) : List Nat :=
  (s.data.map utf8Bytes).flatten

/-- Truncation to a 32-bit word. -/
def w32 (n : Nat) : Nat := n % 4294967296

/-- 32-bit left rotation (input assumed `< 2 ^ 32`). -/
def rotl32 (x s : Nat) : Nat :=
  w32 (x * 2 ^ s) + x / 2 ^ (32 - s)

/-- Bitwise complement on 32-bit words. -/
def not32 (x : Nat) : Nat := 4294967295 - x

/-- Little-endian byte decomposition, `k` bytes. -/
def leBytes (k n : Nat) : List Nat :=
  match k with
  | 0 => []
  | k + 1 => n % 256 :: leBytes k (n / 256)

/-- Big-endian byte decomposition, `k` bytes. -/
def beBytes (k n : Nat) : List Nat :=
  (leBytes k n).reverse

/-- Word assembled from 4 little-endian bytes. -/
def leWord : List Nat → Nat
  | [a, b, c, d] => a + 256 * b + 65536 * c + 16777216 * d
  | _ => 0

/-- Word assembled from 4 big-endian bytes. -/
def beWord : List Nat → Nat
  | [a, b, c, d] => d + 256 * c + 65536 * b + 16777216 * a
  | _ => 0

/-- Split a list into chunks of `k` elements (`k > 0` for progress; the
digests call it with 4 and 64). -/
def chunksOf (k : Nat) : List Nat → List (List Nat)
  | [] => []
  | c :: t => (c :: t).take k :: chunksOf k (t.drop (k - 1))
termination_by l => l.length
decreasing_by simp [List.length_drop]; omega

/-- Lowercase hex digit for a value `< 16`. -/
def hexDigit (n : Nat) : Char :=
  if n < 10 then Char.ofNat (48 + n) else Char.ofNat (87 + n)

/-- Two lowercase hex digits of a byte. -/
def byteHex (n : Nat) : List Char :=
  [hexDigit (n / 16 % 16), hexDigit (n % 16)]

/-- Lowercase hex string of a byte list (model of `hexdigest()`). -/
def bytesHex (bs : List Nat) : String :=
  String.mk ((bs.map byteHex).flatten)

/-! ## MD5 (model of `hashlib.md5`, used for receipt ids) -/

/-- MD5 per-round left-rotation amounts. -/
def md5S : List Nat :=
  [7, 12, 17, 22, 7, 12, 17, 22, 7, 12, 17, 22, 7, 12, 17, 22,
   5, 9, 14, 20, 5, 9, 14, 20, 5, 9, 14, 20, 5, 9, 14, 20,
   4, 11, 16, 23, 4, 11, 16, 23, 4, 11, 16, 23, 4, 11, 16, 23,
   6, 10, 15, 21, 6, 10, 15, 21, 6, 10, 15, 21, 6, 10, 15, 21]

/-- MD5 sine-derived additive constants. -/
def md5K : List Nat :=
  [3614090360, 3905402710, 606105819, 3250441966, 4118548399, 1200080426, 2821735955, 4249261313,
   1770035416, 2336552879, 4294925233, 2304563134, 1804603682, 4254626195, 2792965006, 1236535329,
   4129170786, 3225465664, 643717713, 3921069994, 3593408605, 38016083, 3634488961, 3889429448,
   568446438, 3275163606, 4107603335, 1163531501, 2850285829, 4243563512, 1735328473, 2368359562,
   4294588738, 2272392833, 1839030562, 4259657740, 2763975236, 1272893353, 4139469664, 3200236656,
   681279174, 3936430074, 3572445317, 76029189, 3654602809, 3873151461, 530742520, 3299628645,
   4096336452, 1126891415, 2878612391, 4237533241, 1700485571, 2399980690, 4293915773, 2240044497,
   1873313359, 4264355552, 2734768916, 1309151649, 4149444226, 3174756917, 718787259, 3951481745]

/-- MD5 padding: `0x80`, zeros to 56 mod 64, then the bit length as 8
little-endian bytes. -/
def md5Pad (msg : List Nat) : List Nat :=
  let padLen := (55 + 64 - msg.length % 64) % 64 + 1
  msg ++ (128 :: List.replicate (padLen - 1) 0) ++ leBytes 8 (8 * msg.length % 2 ^ 64)

/-- One MD5 round: state `(a, b, c, d)`, round index `i`, message words `m`. -/
def md5Round (m : List Nat) (st : Nat × Nat × Nat × Nat) (i : Nat) : Nat × Nat × Nat × Nat :=
  let (a, b, c, d) := st
  let (f, g) :=
    if i < 16 then (Nat.lor (Nat.land b c) (Nat.land (not32 b) d), i)
    else if i < 32 then (Nat.lor (Nat.land d b) (Nat.land (not32 d) c), (5 * i + 1) % 16)
    else if i < 48 then (Nat.xor b (Nat.xor c d), (3 * i + 5) % 16)
    else (Nat.xor c (Nat.lor b (not32 d)), (7 * i) % 16)
  let f := w32 (f + a + md5K.getD i 0 + m.getD g 0)
  (d, w32 (b + rotl32 f (md5S.getD i 0)), b, c)

/-- Process one 64-byte MD5 chunk. -/
def md5Chunk (st : Nat × Nat × Nat × Nat) (chunk : List Nat) : Nat × Nat × Nat × Nat :=
  let m := (chunksOf 4 chunk).map leWord
  let (a0, b0, c0, d0) := st
  let (a, b, c, d) := (List.range 64).foldl (md5Round m) st
  (w32 (a0 + a), w32 (b0 + b), w32 (c0 + c), w32 (d0 + d))

/-- MD5 digest of a byte list, as 16 bytes. -/
def md5Bytes (msg : List Nat) : List Nat :=
  let st := (chunksOf 64 (md5Pad msg)).foldl md5Chunk (1732584193, 4023233417, 2562383102, 271733878)
  let (a, b, c, d) := st
  leBytes 4 a ++ leBytes 4 b ++ leBytes 4 c ++ leBytes 4 d

/-- Model of `hashlib.md5(s.encode()).hexdigest()`. -/
def md5Hex (s : String) : String :=
  bytesHex (md5Bytes (strBytes s))

/-! ## SHA-256 (model of `hashlib.sha256`, used for content hashes) -/

/-- SHA-256 cube-root additive constants. -/
def sha256K : List Nat :=
  [1116352408, 1899447441, 3049323471, 3921009573, 961987163, 1508970993, 2453635748, 2870763221,
   3624381080, 310598401, 607225278, 1426881987, 1925078388, 2162078206, 2614888103, 3248222580,
   3835390401, 4022224774, 264347078, 604807628, 770255983, 1249150122, 1555081692, 1996064986,
   2554220882, 2821834349, 2952996808, 3210313671, 3336571891, 3584528711, 113926993, 338241895,
   666307205, 773529912, 1294757372, 1396182291, 1695183700, 1986661051, 2177026350, 2456956037,
   2730485921, 2820302411, 3259730800, 3345764771, 3516065817, 3600352804, 4094571909, 275423344,
   430227734, 506948616, 659060556, 883997877, 958139571, 1322822218, 1537002063, 1747873779,
   1955562222, 2024104815, 2227730452, 2361852424, 2428436474, 2756734187, 3204031479, 3329325298]

/-- 32-bit right rotation. -/
def rotr32 (x s : Nat) : Nat :=
  x / 2 ^ s + w32 (x * 2 ^ (32 - s))

/-- SHA-256 padding (big-endian bit length). -/
def sha256Pad (msg : List Nat) : List Nat :=
  let padLen := (55 + 64 - msg.length % 64) % 64 + 1
  msg ++ (128 :: List.replicate (padLen - 1) 0) ++ beBytes 8 (8 * msg.length % 2 ^ 64)

/-- Extend the 16 message words to 64 (message schedule). -/
def sha256Extend (w : List Nat) : Nat → List Nat
  | 0 => w
  | n + 1 =>
    let w := sha256Extend w n
    let i := w.length
    let w15 := w.getD (i - 15) 0
    let w2 := w.getD (i - 2) 0
    let s0 := Nat.xor (rotr32 w15 7) (Nat.xor (rotr32 w15 18) (w15 / 2 ^ 3))
    let s1 := Nat.xor (rotr32 w2 17) (Nat.xor (rotr32 w2 19) (w2 / 2 ^ 10))
    w ++ [w32 (w.getD (i - 16) 0 + s0 + w.getD (i - 7) 0 + s1)]

/-- One SHA-256 compression round. -/
def sha256Round (w : List Nat) (st : List Nat) (i : Nat) : List Nat :=
  match st with
  | [a, b, c, d, e, f, g, h] =>
    let S1 := Nat.xor (rotr32 e 6) (Nat.xor (rotr32 e 11) (rotr32 e 25))
    let ch := Nat.xor (Nat.land e f) (Nat.land (not32 e) g)
    let t1 := w32 (h + S1 + ch + sha256K.getD i 0 + w.getD i 0)
    let S0 := Nat.xor (rotr32 a 2) (Nat.xor (rotr32 a 13) (rotr32 a 22))
    let maj := Nat.xor (Nat.land a b) (Nat.xor (Nat.land a c) (Nat.land b c))
    let t2 := w32 (S0 + maj)
    [w32 (t1 + t2), a, b, c, w32 (d + t1), e, f, g]
  | st => st

/-- Process one 64-byte SHA-256 chunk. -/
def sha256Chunk (st : List Nat) (chunk : List Nat) : List Nat :=
  let w := sha256Extend ((chunksOf 4 chunk).map beWord) 48
  let st2 := (List.range 64).foldl (sha256Round w) st
  (st.zip st2).map (fun p => w32 (p.1 + p.2))

/-- SHA-256 digest of a byte list, as 32 bytes. -/
def sha256Bytes (msg : List Nat) : List Nat :=
  let h0 := [1779033703, 3144134277, 1013904242, 2773480762, 1359893119, 2600822924, 528734635, 1541459225]
  (((chunksOf 64 (sha256Pad msg)).foldl sha256Chunk h0).map (beBytes 4)).flatten

/-- Model of `hashlib.sha256(content.encode()).hexdigest()`. -/
def sha256Hex (s : String) : String :=
  bytesHex (sha256Bytes (strBytes s))

/-! ## Principle rule engine (`constitutional_ai.py`, Yama principle classes)

Each checker owns two fixed pattern lists and scans the lower-cased
content; the first matching pattern short-circuits with a failure whose
explanation embeds the matched phrase. -/

/-- Patterns of `Ahimsa.harm_indicators`. -/
def ahimsaHarmIndicators : List String :=
  ["stop medication", "ignore doctor", "avoid treatment",
   "skip consultation", "self-diagnose", "definitely have",
   "must be", "always means", "you should stop"]

/-- Patterns of `Ahimsa.forcing_patterns`. -/
def ahimsaForcingPatterns : List String :=
  ["you need to tell me", "you must share", "everyone does this",
   "it\x27s wrong not to", "you\x27re avoiding"]

/-- Model of `Ahimsa.validate`. -/
def ahimsaValidate (content : String) : Bool × String :=
  let content_lower := lowerStr content
  match ahimsaHarmIndicators.find? (fun p => strIn p content_lower) with
  | some indicator =>
    (false, "AHIMSA VIOLATION: Content suggests potentially harmful medical advice: \x27" ++ indicator ++ "\x27")
  | none =>
    match ahimsaForcingPatterns.find? (fun p => strIn p content_lower) with
    | some pat => (false, "AHIMSA VIOLATION: Content forces user disclosure: \x27" ++ pat ++ "\x27")
    | none => (true, "Ahimsa: Content respects user\x27s boundaries and safety")

/-- Patterns of `Satya.false_certainty`. -/
def satyaFalseCertainty : List String :=
  ["guaranteed", "definitely will", "always works", "never fails",
   "impossible to", "certain to", "100% effective", "proven cure"]

/-- Patterns of `Satya.dismissal_patterns`. -/
def satyaDismissalPatterns : List String :=
  ["you\x27re contradicting yourself", "that doesn\x27t make sense",
   "pick one", "which is it really", "stop being inconsistent"]

/-- Model of `Satya.validate`. -/
def satyaValidate (content : String) : Bool × String :=
  let content_lower := lowerStr content
  match satyaFalseCertainty.find? (fun p => strIn p content_lower) with
  | some claim => (false, "SATYA VIOLATION: Overstating certainty: \x27" ++ claim ++ "\x27")
  | none =>
    match satyaDismissalPatterns.find? (fun p => strIn p content_lower) with
    | some pat => (false, "SATYA VIOLATION: Dismissing user\x27s contradictions: \x27" ++ pat ++ "\x27")
    | none => (true, "Satya: Content honors complexity and uncertainty")

/-- Patterns of `Asteya.theft_patterns`. -/
def asteyaTheftPatterns : List String :=
  ["you really mean", "what you\x27re actually saying is",
   "let me tell you what\x27s happening", "the truth is",
   "you\x27re in denial about", "you don\x27t realize"]

/-- Patterns of `Asteya.manipulation_patterns`. -/
def asteyaManipulationPatterns : List String :=
  ["must buy", "need to purchase", "requires paid",
   "won\x27t work unless", "have to subscribe", "click here to cure"]

/-- Model of `Asteya.validate`. -/
def asteyaValidate (content : String) : Bool × String :=
  let content_lower := lowerStr content
  match asteyaTheftPatterns.find? (fun p => strIn p content_lower) with
  | some pat => (false, "ASTEYA VIOLATION: Stealing user\x27s interpretation: \x27" ++ pat ++ "\x27")
  | none =>
    match asteyaManipulationPatterns.find? (fun p => strIn p content_lower) with
    | some pat => (false, "ASTEYA VIOLATION: Manipulative commercial intent: \x27" ++ pat ++ "\x27")
    | none => (true, "Asteya: Content respects user\x27s narrative ownership")

/-- Patterns of `Brahmacharya.overreach_patterns`. -/
def brahmacharyaOverreachPatterns : List String :=
  ["diagnose yourself", "you have", "you definitely",
   "symptoms indicate", "medical diagnosis", "prescribe",
   "instead of doctor", "don\x27t need medical"]

/-- Patterns of `Brahmacharya.intensity_patterns`. -/
def brahmacharyaIntensityPatterns : List String :=
  ["you must confront", "face your trauma now",
   "dig deeper immediately", "you need to process this now"]

/-- Model of `Brahmacharya.validate`. -/
def brahmacharyaValidate (content : String) : Bool × String :=
  let content_lower := lowerStr content
  match brahmacharyaOverreachPatterns.find? (fun p => strIn p content_lower) with
  | some pat => (false, "BRAHMACHARYA VIOLATION: Exceeding health coach scope: \x27" ++ pat ++ "\x27")
  | none =>
    match brahmacharyaIntensityPatterns.find? (fun p => strIn p content_lower) with
    | some pat => (false, "BRAHMACHARYA VIOLATION: Forcing emotional intensity: \x27" ++ pat ++ "\x27")
    | none => (true, "Brahmacharya: Content maintains appropriate boundaries")

/-- Patterns of `Aparigraha.brand_indicators`. -/
def aparigrahaBrandIndicators : List String :=
  ["this brand", "buy our", "my product",
   "exclusive offer", "limited time", "act now"]

/-- Patterns of `Aparigraha.attachment_patterns`. -/
def aparigrahaAttachmentPatterns : List String :=
  ["you have to", "you must achieve", "only way forward",
   "my solution is", "follow my plan", "do exactly"]

/-- Model of `Aparigraha.validate`. -/
def aparigrahaValidate (content : String) : Bool × String :=
  let content_lower := lowerStr content
  match aparigrahaBrandIndicators.find? (fun p => strIn p content_lower) with
  | some indicator => (false, "APARIGRAHA VIOLATION: Commercial bias detected: \x27" ++ indicator ++ "\x27")
  | none =>
    match aparigrahaAttachmentPatterns.find? (fun p => strIn p content_lower) with
    | some pat => (false, "APARIGRAHA VIOLATION: Attached to specific outcome: \x27" ++ pat ++ "\x27")
    | none => (true, "Aparigraha: Content offers without attachment")

/-- Every pattern owned by any of the five checkers. -/
def allCheckerPatterns : List String :=
  ahimsaHarmIndicators ++ ahimsaForcingPatterns ++
  satyaFalseCertainty ++ satyaDismissalPatterns ++
  asteyaTheftPatterns ++ asteyaManipulationPatterns ++
  brahmacharyaOverreachPatterns ++ brahmacharyaIntensityPatterns ++
  aparigrahaBrandIndicators ++ aparigrahaAttachmentPatterns

/-! ## Constitutional validator (`ConstitutionalValidator`) -/

/-- The `self.principles` table, in its fixed insertion order. -/
def principles : List (String × (String → Bool × String)) :=
  [("Ahimsa", ahimsaValidate),
   ("Satya", satyaValidate),
   ("Asteya", asteyaValidate),
   ("Brahmacharya", brahmacharyaValidate),
   ("Aparigraha", aparigrahaValidate)]

/-- One entry of a receipt's `harmonies` or `violations` list. -/
structure PrincipleEntry where
  principle : String
  status : String
  explanation : String
deriving Repr, DecidableEq

/-- Value appearing in a receipt's `context` mapping (the caller passes
strings, counts, or a nested string table). -/
inductive CtxVal
  | str (v : String)
  | num (v : Nat)
  | table (v : List (String × String))
deriving Repr, DecidableEq

/-- Constitutional receipt as built by `validate_content`. -/
structure Receipt where
  receipt_id : String
  timestamp : String
  content_type : String
  content_hash : String
  validation_result : String
  harmonies : List PrincipleEntry
  violations : List PrincipleEntry
  summary : String
  context : List (String × CtxVal)
deriving Repr, DecidableEq

/-- Model of `ConstitutionalValidator._generate_receipt_id`: md5 of the
first 100 characters of the content concatenated with the timestamp,
truncated to 12 hex digits and upper-cased. -/
def generateReceiptId (content timestamp : String) : String :=
  let combined := strTake content 100 ++ timestamp
  "CONST_" ++ upperStr (strTake (md5Hex combined) 12)

/-- Model of `ConstitutionalValidator._generate_summary`. -/
def generateSummary (harmonies violations : List PrincipleEntry) : String :=
  if violations.length = 0 then
    "✅ Constitutional validation PASSED. All " ++ toString harmonies.length ++ " principles in harmony."
  else
    "❌ Constitutional validation FAILED. Violations: " ++
      String.intercalate ", " (violations.map (fun v => v.principle))

/-- The `for name, principle in self.principles.items()` loop of
`validate_content`: run every checker in order, collecting harmony and
violation entries. -/
def collectChecks (checkers : List (String × (String → Bool × String))) (content : String) :
    List PrincipleEntry × List PrincipleEntry :=
  match checkers with
  | [] => ([], [])
  | (name, checker) :: rest =>
    let (is_valid, explanation) := checker content
    let (hs, vs) := collectChecks rest content
    if is_valid then
      ({ principle := name, status := "harmony", explanation := explanation } :: hs, vs)
    else
      (hs, { principle := name, status := "violation", explanation := explanation } :: vs)

/-- Model of `ConstitutionalValidator.validate_content`: the validator's
`validation_history` list is passed and returned explicitly, with the
produced receipt appended at the end. -/
def validateContent (history : List Receipt) (content content_type : String)
    (context : Option (List (String × CtxVal))) (timestamp : String) :
    Receipt × List Receipt :=
  let (harmonies, violations) := collectChecks principles content
  let receipt : Receipt :=
    { receipt_id := generateReceiptId content timestamp
      timestamp := timestamp
      content_type := content_type
      content_hash := sha256Hex content
      validation_result := if violations.length = 0 then "PASSED" else "FAILED"
      harmonies := harmonies
      violations := violations
      summary := generateSummary harmonies violations
      context := context.getD [] }
  (receipt, history ++ [receipt])

/-- Model of `ConstitutionalValidator.validate_story_synthesis`. -/
def validateStorySynthesis (history : List Receipt) (synthesis : String)
    (fragment_count : Nat) (timestamp : String) : Receipt × List Receipt :=
  let context := [("fragment_count", CtxVal.num fragment_count),
                  ("synthesis_length", CtxVal.num synthesis.length),
                  ("validation_type", CtxVal.str "story_synthesis")]
  validateContent history synthesis "story_synthesis" (some context) timestamp

/-- Model of `ConstitutionalValidator.validate_recommendation`. -/
def validateRecommendation (history : List Receipt) (recommendation : String)
    (user_context : List (String × String)) (timestamp : String) : Receipt × List Receipt :=
  let context := [("user_context", CtxVal.table user_context),
                  ("validation_type", CtxVal.str "recommendation")]
  validateContent history recommendation "recommendation" (some context) timestamp

/-- Model of `ConstitutionalValidator.get_audit_trail` (read-only). -/
def getAuditTrail (history : List Receipt) (content_type : Option String) : List Receipt :=
  match content_type with
  | some ct => history.filter (fun r => r.content_type == ct)
  | none => history

/-- Operations a caller may perform on one validator instance during a
process lifetime (`export_receipts` writes the history out unchanged and
is covered by the read-only case). -/
inductive ValidatorOp
  | validate (content content_type : String)
      (context : Option (List (String × CtxVal))) (timestamp : String)
  | validateStory (synthesis : String) (fragment_count : Nat) (timestamp : String)
  | validateRec (recommendation : String) (user_context : List (String × String)) (timestamp : String)
  | readAuditTrail (content_type : Option String)

/-- Effect of one operation on the validator's `validation_history`. -/
def applyValidatorOp (history : List Receipt) (op : ValidatorOp) : List Receipt :=
  match op with
  | .validate c ct ctx ts => (validateContent history c ct ctx ts).2
  | .validateStory s n ts => (validateStorySynthesis history s n ts).2
  | .validateRec r uc ts => (validateRecommendation history r uc ts).2
  | .readAuditTrail _ => history

/-- Number of receipts one operation appends (each validation call
appends exactly one; queries append none). -/
def receiptsAppended : ValidatorOp → Nat
  | .readAuditTrail _ => 0
  | _ => 1

/-! ## External harm judge adapter (`harm_detection.py`) -/

/-- User journey modes (`JourneyMode`). -/
inductive JourneyMode
  | preventive
  | medical
deriving Repr, DecidableEq

/-- The `.value` string of a journey mode. -/
def JourneyMode.value : JourneyMode → String
  | .preventive => "preventive"
  | .medical => "medical"

/-- One entry of a verdict's `flagged_sections` list. -/
structure FlaggedSection where
  quote : String := ""
  issue_type : String := ""
  severity : String := ""
  rationale : String := ""
  suggested_revision : String := ""
deriving Repr, DecidableEq

/-- One entry of a verdict's `constitutional_violations` list. -/
structure JudgeViolation where
  principle : String := ""
  violation_description : String := ""
  evidence_quote : String := ""
deriving Repr, DecidableEq

/-- Parsed judge verdict dictionary.  Every field is optional because the
judge may return arbitrary JSON; `dict.get(key, default)` accesses in the
callers become `Option.getD`. -/
structure HarmAnalysis where
  risk_level : Option String := none
  overall_assessment : Option String := none
  flagged_sections : Option (List FlaggedSection) := none
  constitutional_violations : Option (List JudgeViolation) := none
  requires_human_review : Option Bool := none
  auto_safe_delivery : Option Bool := none
  reviewer_guidance : Option String := none
  mode_specific_concerns : Option (List (String × Option String)) := none
  detector_model : Option String := none
  analysis_timestamp : Option String := none
  session_mode : Option String := none
  error : Option String := none
deriving Repr, DecidableEq

/-- Outcome of the external judge call in `scan_report`: either the
client raised (network/transport/API failure, carrying `str(e)`), or a
response text arrived. -/
inductive JudgeCallResult
  | transportError (msg : String)
  | response (text : String)
deriving Repr, DecidableEq

/-- The markdown-code-block extraction applied to the judge response
before `json.loads`: `split('```json')[1].split('```')[0].strip()` when
the response contains a ```` ```json ```` fence, analogously for a bare
```` ``` ```` fence, and the raw text otherwise. -/
def extractJsonText (raw : String) : String :=
  if strIn "```json" raw then
    stripStr (String.mk (takeUntilSep "```".data (segmentAfterFirst "```json".data raw.data)))
  else if strIn "```" raw then
    stripStr (String.mk (takeUntilSep "```".data (segmentAfterFirst "```".data raw.data)))
  else
    raw

/-- Model of `LLMHarmDetector.scan_report`, from the `try` onward (the
prompt construction feeds only the external judge, whose behaviour is the
`call` argument).  `parseJson` stands for `json.loads`: `.error e` is a
raised `json.JSONDecodeError` with message `e`.  `now` stands for
`datetime.utcnow().isoformat()`.  Every path returns a verdict; no path
raises. -/
def scanReport (parseJson : String → Except String HarmAnalysis)
    (mode : JourneyMode) (call : JudgeCallResult) (now : String) : HarmAnalysis :=
  match call with
  | .response raw =>
    let response_text := extractJsonText raw
    match parseJson response_text with
    | .ok analysis =>
      { analysis with
        detector_model := some "claude-sonnet-4-20250514"
        analysis_timestamp := some now
        session_mode := some mode.value }
    | .error e =>
      { risk_level := some "CAUTION"
        overall_assessment := some "Unable to parse LLM analysis - requires human review"
        flagged_sections := some []
        constitutional_violations := some []
        requires_human_review := some true
        auto_safe_delivery := some false
        reviewer_guidance := some "LLM analysis failed - manual review required"
        mode_specific_concerns := some []
        detector_model := some "claude-sonnet-4-20250514"
        analysis_timestamp := some now
        session_mode := some mode.value
        error := some e }
  | .transportError e =>
    { risk_level := some "CAUTION"
      overall_assessment := some ("Harm detection error: " ++ e)
      flagged_sections := some []
      constitutional_violations := some []
      requires_human_review := some true
      auto_safe_delivery := some false
      reviewer_guidance := some "Error during analysis - manual review required"
      mode_specific_concerns := some []
      detector_model := some "claude-sonnet-4-20250514"
      analysis_timestamp := some now
      session_mode := some mode.value
      error := some e }

/-! ## Review queue manager (`review_queue.py`) -/

/-- `ReviewStatus` lifecycle states. -/
inductive ReviewStatus
  | pending
  | approved
  | rejected
  | revision_requested
deriving Repr, DecidableEq

/-- The `.value` string stored in the `status` column. -/
def ReviewStatus.value : ReviewStatus → String
  | .pending => "pending"
  | .approved => "approved"
  | .rejected => "rejected"
  | .revision_requested => "revision_requested"

/-- One conversation fragment as consumed by `_extract_key_themes`
(`fragment.get('text', '')`). -/
structure Fragment where
  text : Option String := none
deriving Repr, DecidableEq

/-- Session data fields read via `session_data.get`. -/
structure SessionData where
  turn_count : Option Nat := none
  phase : Option String := none
deriving Repr, DecidableEq

/-- A `report_reviews` row (`ReportReview` model).  Timestamps are
abstract ticks. -/
structure ReportReview where
  report_id : String
  session_id : String
  user_id : Nat
  report_html : String
  groq_synthesis_metadata : List (String × String) := []
  llm_analysis : HarmAnalysis
  risk_level : String
  flagged_sections_count : Nat
  user_journey_summary : String
  key_themes : List String
  mode : String
  status : String
  requires_human_review : Bool
  auto_safe_delivery : Bool
  admin_bypass : Bool
  reviewer_id : Option Nat := none
  reviewed_at : Option Nat := none
  reviewer_notes : Option String := none
  reviewer_decision : Option String := none
  delivered_at : Option Nat := none
  delivery_method : Option String := none
deriving Repr, DecidableEq

/-- Model of `_generate_journey_summary` (no PII). -/
def generateJourneySummary (mode : JourneyMode) (session_data : SessionData) : String :=
  let mode_desc :=
    match mode with
    | .preventive => "exploring metabolic health prevention"
    | .medical => "managing diabetes with medication"
  let turn_count := session_data.turn_count.getD 0
  let phase := session_data.phase.getD "unknown"
  "User " ++ mode_desc ++ " over " ++ toString turn_count ++ " conversation turns (Phase: " ++ phase ++ ")"

/-- The `theme_keywords` table of `_extract_key_themes`. -/
def themeKeywords : List (String × List String) :=
  [("medication adherence", ["insulin", "metformin", "medication", "dose", "prescription", "pill"]),
   ("lifestyle change", ["exercise", "diet", "sleep", "stress", "habit", "routine"]),
   ("clinical monitoring", ["blood sugar", "glucose", "A1C", "test", "doctor", "lab"]),
   ("technology use", ["app", "wearable", "tracker", "device", "monitor", "phone"]),
   ("emotional wellbeing", ["anxious", "worried", "frustrated", "overwhelmed", "hopeful", "scared"])]

/-- Add a theme to the collected set (Python `set.add`; membership is the
set's content, enumeration order is modelled as insertion order). -/
def insertTheme (themes : List String) (t : String) : List String :=
  if themes.contains t then themes else themes ++ [t]

/-- Model of `_extract_key_themes`: scan the first 20 fragments, adding
every theme with a keyword contained in the lower-cased fragment text.
The source's `len(themes) >= 5` breaks only exit the loops early; with
exactly five possible themes they never change the resulting set. -/
def extractKeyThemes (fragments : List Fragment) : List String :=
  (fragments.take 20).foldl
    (fun themes fragment =>
      let text_lower := lowerStr (fragment.text.getD "")
      themeKeywords.foldl
        (fun themes tk =>
          if tk.2.any (fun keyword => strIn keyword text_lower) then
            insertTheme themes tk.1
          else themes)
        themes)
    []

/-- Model of `ReviewQueueManager.submit_report_for_review` after the
awaited harm scan: `harm_analysis` is the verdict the scan returned,
`report_id` the generated `RPT_` token.  Builds the review row and applies
the decision logic (admin bypass, then auto-safe, then queue). -/
def submitReportForReview (harm_analysis : HarmAnalysis) (user_role : String)
    (report_id session_id : String) (user_id : Nat) (report_html : String)
    (mode : JourneyMode) (fragments : List Fragment) (session_data : SessionData) :
    ReportReview :=
  let is_admin := user_role == "admin"
  let auto_safe := harm_analysis.auto_safe_delivery.getD false
  let review : ReportReview :=
    { report_id := report_id
      session_id := session_id
      user_id := user_id
      report_html := report_html
      llm_analysis := harm_analysis
      risk_level := harm_analysis.risk_level.getD "CAUTION"
      flagged_sections_count := (harm_analysis.flagged_sections.getD []).length
      user_journey_summary := generateJourneySummary mode session_data
      key_themes := extractKeyThemes fragments
      mode := mode.value
      status := ReviewStatus.pending.value
      requires_human_review := harm_analysis.requires_human_review.getD true
      auto_safe_delivery := auto_safe
      admin_bypass := is_admin }
  if is_admin then
    { review with
      status := ReviewStatus.approved.value
      reviewer_notes := some "Admin user - auto-approved" }
  else if auto_safe && !(harm_analysis.requires_human_review.getD true) then
    { review with
      status := ReviewStatus.approved.value
      reviewer_notes := some "LLM harm detector: SAFE (no human review required)" }
  else
    { review with status := ReviewStatus.pending.value }

/-- Committed contents of the `report_reviews` table. -/
structure QueueState where
  reviews : List ReportReview := []
deriving Repr, DecidableEq

/-- Model of `get_review_by_id` (`filter(report_id == ...).first()`). -/
def getReviewById (s : QueueState) (report_id : String) : Option ReportReview :=
  s.reviews.find? (fun r => r.report_id == report_id)

/-- A raised `HTTPException` (status code and detail). -/
structure HttpError where
  status_code : Nat
  detail : String
deriving Repr, DecidableEq

/-- Commit an updated row: replace the row with the same `report_id`. -/
def commitReview (s : QueueState) (updated : ReportReview) : QueueState :=
  { reviews := s.reviews.map (fun r => if r.report_id == updated.report_id then updated else r) }

/-- Model of `ReviewQueueManager.submit_reviewer_decision`.  The stamped
fields are session-local until `db.commit()`; the error paths raise
before reaching the commit and the request's session is then closed
without committing, so they leave the table state unchanged. -/
def submitReviewerDecision (s : QueueState) (report_id : String) (reviewer_id : Nat)
    (decision : String) (reviewer_notes : String) (now : Nat) :
    Except HttpError (QueueState × ReportReview) :=
  match getReviewById s report_id with
  | none => .error ⟨404, "Report not found"⟩
  | some review =>
    if review.status != ReviewStatus.pending.value then
      .error ⟨400, "Report already reviewed"⟩
    else
      let stamped :=
        { review with
          reviewer_id := some reviewer_id
          reviewed_at := some now
          reviewer_notes := some reviewer_notes
          reviewer_decision := some decision }
      if decision == "approve" then
        .ok (commitReview s { stamped with status := ReviewStatus.approved.value },
             { stamped with status := ReviewStatus.approved.value })
      else if decision == "reject" then
        .ok (commitReview s { stamped with status := ReviewStatus.rejected.value },
             { stamped with status := ReviewStatus.rejected.value })
      else if decision == "revise" then
        .ok (commitReview s { stamped with status := ReviewStatus.revision_requested.value },
             { stamped with status := ReviewStatus.revision_requested.value })
      else
        .error ⟨400, "Invalid decision"⟩

/-- `submit_report_for_review` as a table transition: inserting a row
whose `report_id` collides with an existing one violates the column's
unique constraint at commit (error, nothing persisted); otherwise the new
row is appended. -/
def submitReportOp (s : QueueState) (harm_analysis : HarmAnalysis) (user_role : String)
    (report_id session_id : String) (user_id : Nat) (report_html : String)
    (mode : JourneyMode) (fragments : List Fragment) (session_data : SessionData) :
    Except HttpError (QueueState × ReportReview) :=
  if s.reviews.any (fun r => r.report_id == report_id) then
    .error ⟨500, "UNIQUE constraint failed: report_reviews.report_id"⟩
  else
    let review := submitReportForReview harm_analysis user_role report_id session_id
      user_id report_html mode fragments session_data
    .ok ({ reviews := s.reviews ++ [review] }, review)

/-- Operations that touch the review table (queries never mutate and are
omitted; a failed operation rolls the transaction back). -/
inductive QueueOp
  | submitReport (harm_analysis : HarmAnalysis) (user_role report_id session_id : String)
      (user_id : Nat) (report_html : String) (mode : JourneyMode)
      (fragments : List Fragment) (session_data : SessionData)
  | reviewerDecision (report_id : String) (reviewer_id : Nat)
      (decision reviewer_notes : String) (now : Nat)

/-- Effect of one operation on the committed table state. -/
def applyQueueOp (s : QueueState) (op : QueueOp) : QueueState :=
  match op with
  | .submitReport h role rid sid uid html m fr sd =>
    match submitReportOp s h role rid sid uid html m fr sd with
    | .ok (s2, _) => s2
    | .error _ => s
  | .reviewerDecision rid rev d notes now =>
    match submitReviewerDecision s rid rev d notes now with
    | .ok (s2, _) => s2
    | .error _ => s

/-! ## The `constitutional_guard` decorator (`constitutional_ai.py`) -/

/-- Shape of a value returned by a wrapped function, as far as the
decorator's `isinstance` checks can tell them apart. -/
inductive PyResult
  | pstr (s : String)
  | pdict (entries : List (String × Option Receipt))
  | pother
deriving Repr, DecidableEq

/-- Model of `isinstance(result, str)`. -/
def PyResult.isinstanceStr : PyResult → Bool
  | .pstr _ => true
  | _ => false

/-- Model of `isinstance(result, dict)`. -/
def PyResult.isinstanceDict : PyResult → Bool
  | .pdict _ => true
  | _ => false

/-- The string payload (`result` at the `validate_content` call site). -/
def PyResult.text : PyResult → String
  | .pstr s => s
  | _ => ""

/-- Model of `result['constitutional_receipt'] = receipt`. -/
def attachReceipt (result : PyResult) (receipt : Receipt) : PyResult :=
  match result with
  | .pdict entries => .pdict (("constitutional_receipt", some receipt) :: entries)
  | r => r

/-- Model of the `constitutional_guard` wrapper body once the wrapped
function has produced `result`: a fresh validator (empty history)
validates string results; a FAILED receipt is only logged; the
receipt-attachment assignment sits inside the `isinstance(result, str)`
branch behind an `isinstance(result, dict)` test. -/
def constitutionalGuard (content_type : String) (result : PyResult) (timestamp : String) :
    PyResult :=
  if result.isinstanceStr then
    let receipt := (validateContent [] result.text content_type none timestamp).1
    if result.isinstanceDict then attachReceipt result receipt else result
  else
    result

/-! ## Concrete inputs used by witnesses and counterexamples -/

/-- Receipts appended to the history by one validator operation (none
for queries, the single receipt otherwise; the receipt a validation call
builds never depends on the history). -/
def opReceipts : ValidatorOp → List Receipt
  | .validate c ct ctx ts => [(validateContent [] c ct ctx ts).1]
  | .validateStory s n ts => [(validateStorySynthesis [] s n ts).1]
  | .validateRec r uc ts => [(validateRecommendation [] r uc ts).1]
  | .readAuditTrail _ => []

/-- The review row stamped by a successful reviewer decision. -/
def stampedReview (r : ReportReview) (reviewer_id : Nat) (now : Nat)
    (reviewer_notes decision status_value : String) : ReportReview :=
  { r with
    reviewer_id := some reviewer_id
    reviewed_at := some now
    reviewer_notes := some reviewer_notes
    reviewer_decision := some decision
    status := status_value }

/-- A run of `n` copies of the letter a. -/
def aRun (n : Nat) : String := String.mk (List.replicate n 'a')

/-- A fixed timestamp for concrete instances. -/
def ts0 : String := "2024-01-01T00:00:00"

/-- The message `json.loads` raises on the non-JSON judge response
used in the concrete instances (for example the plain sentence
`I cannot analyze this report.`). -/
def jsonErrMsg : String := "Expecting value: line 1 column 1 (char 0)"

/-- Model of `json.loads` on that malformed response: it raises. -/
def failingParse : String → Except String HarmAnalysis := fun _ => .error jsonErrMsg

/-- A judge verdict that self-reports DANGEROUS yet also claims safe
delivery with no human review (nothing in the adapter prevents this). -/
def dangerousAutoSafeVerdict : HarmAnalysis :=
  { risk_level := some "DANGEROUS"
    auto_safe_delivery := some true
    requires_human_review := some false }

/-- A well-formed SAFE verdict. -/
def safeVerdict : HarmAnalysis :=
  { risk_level := some "SAFE"
    auto_safe_delivery := some true
    requires_human_review := some false }

/-- A well-formed CAUTION verdict. -/
def cautionVerdict : HarmAnalysis :=
  { risk_level := some "CAUTION"
    auto_safe_delivery := some false
    requires_human_review := some true }

/-- A pending review row produced by a non-admin submission of a
CAUTION-rated report. -/
def pendingReview : ReportReview :=
  submitReportForReview cautionVerdict "user" "RPT_1" "sess1" 1 "<p>report</p>"
    JourneyMode.medical [] {}

/-- An auto-approved review row. -/
def approvedReview : ReportReview :=
  submitReportForReview safeVerdict "user" "RPT_2" "sess2" 2 "<p>report</p>"
    JourneyMode.preventive [] {}

/-- A table holding one pending and one approved row. -/
def queue0 : QueueState := { reviews := [pendingReview, approvedReview] }

end Scope

namespace Scope

/-! ## Helper lemmas -/

theorem find?_none_of_all_false {l : List String} {cl : String}
    (h : ∀ p ∈ l, strIn p cl = false) :
    l.find? (fun p => strIn p cl) = none :=
  List.find?_eq_none.mpr (fun x hx => by simp [h x hx])

theorem collectChecks_length (checkers : List (String × (String → Bool × String)))
    (content : String) :
    (collectChecks checkers content).1.length + (collectChecks checkers content).2.length
      = checkers.length := by
  induction checkers with
  | nil => rfl
  | cons c rest ih =>
    obtain ⟨name, checker⟩ := c
    rcases hc : checker content with ⟨valid, expl⟩
    rcases hr : collectChecks rest content with ⟨hs, vs⟩
    rw [hr] at ih
    simp only at ih
    simp only [collectChecks, hc, hr]
    cases valid <;> simp <;> omega

theorem collectChecks_all_pass (checkers : List (String × (String → Bool × String)))
    (content : String) (h : ∀ c ∈ checkers, (c.2 content).1 = true) :
    (collectChecks checkers content).2 = []
      ∧ (collectChecks checkers content).1.length = checkers.length := by
  induction checkers with
  | nil => exact ⟨rfl, rfl⟩
  | cons c rest ih =>
    obtain ⟨name, checker⟩ := c
    have hc1 : (checker content).1 = true := h _ (List.mem_cons_self _ _)
    have hrest := ih (fun x hx => h x (List.mem_cons_of_mem _ hx))
    simp only [collectChecks]
    rcases hc : checker content with ⟨valid, expl⟩
    rcases hr : collectChecks rest content with ⟨hs, vs⟩
    rw [hc] at hc1
    rw [hr] at hrest
    simp at hc1 hrest
    subst hc1
    simp [hrest]

theorem ahimsaValidate_pass {content : String}
    (h : ∀ p ∈ ahimsaHarmIndicators ++ ahimsaForcingPatterns, strIn p (lowerStr content) = false) :
    (ahimsaValidate content).1 = true := by
  have h1 := find?_none_of_all_false (fun p hp => h p (List.mem_append_left _ hp))
  have h2 := find?_none_of_all_false (fun p hp => h p (List.mem_append_right _ hp))
  simp [ahimsaValidate, h1, h2]

theorem satyaValidate_pass {content : String}
    (h : ∀ p ∈ satyaFalseCertainty ++ satyaDismissalPatterns, strIn p (lowerStr content) = false) :
    (satyaValidate content).1 = true := by
  have h1 := find?_none_of_all_false (fun p hp => h p (List.mem_append_left _ hp))
  have h2 := find?_none_of_all_false (fun p hp => h p (List.mem_append_right _ hp))
  simp [satyaValidate, h1, h2]

theorem asteyaValidate_pass {content : String}
    (h : ∀ p ∈ asteyaTheftPatterns ++ asteyaManipulationPatterns, strIn p (lowerStr content) = false) :
    (asteyaValidate content).1 = true := by
  have h1 := find?_none_of_all_false (fun p hp => h p (List.mem_append_left _ hp))
  have h2 := find?_none_of_all_false (fun p hp => h p (List.mem_append_right _ hp))
  simp [asteyaValidate, h1, h2]

theorem brahmacharyaValidate_pass {content : String}
    (h : ∀ p ∈ brahmacharyaOverreachPatterns ++ brahmacharyaIntensityPatterns,
      strIn p (lowerStr content) = false) :
    (brahmacharyaValidate content).1 = true := by
  have h1 := find?_none_of_all_false (fun p hp => h p (List.mem_append_left _ hp))
  have h2 := find?_none_of_all_false (fun p hp => h p (List.mem_append_right _ hp))
  simp [brahmacharyaValidate, h1, h2]

theorem aparigrahaValidate_pass {content : String}
    (h : ∀ p ∈ aparigrahaBrandIndicators ++ aparigrahaAttachmentPatterns,
      strIn p (lowerStr content) = false) :
    (aparigrahaValidate content).1 = true := by
  have h1 := find?_none_of_all_false (fun p hp => h p (List.mem_append_left _ hp))
  have h2 := find?_none_of_all_false (fun p hp => h p (List.mem_append_right _ hp))
  simp [aparigrahaValidate, h1, h2]

/-! ## Claim theorems -/

/-- C4: `validate_content` runs all five principle checkers; the
receipt's `validation_result` is FAILED exactly when at least one checker
fails (`violations` non-empty), the harmony and violation entries always
total five, and content matching no pattern of any checker (after
lower-casing) yields PASSED with exactly 5 harmonies. -/
theorem validate_content_verdict_spec
    (history : List Receipt) (content content_type : String)
    (context : Option (List (String × CtxVal))) (timestamp : String) :
    ((validateContent history content content_type context timestamp).1.validation_result = "FAILED"
      ↔ (validateContent history content content_type context timestamp).1.violations ≠ []) ∧
    (validateContent history content content_type context timestamp).1.harmonies.length +
      (validateContent history content content_type context timestamp).1.violations.length = 5 ∧
    ((∀ p ∈ allCheckerPatterns, strIn p (lowerStr content) = false) →
      (validateContent history content content_type context timestamp).1.validation_result = "PASSED"
        ∧ (validateContent history content content_type context timestamp).1.harmonies.length = 5) := by
  have hlen : (collectChecks principles content).1.length
      + (collectChecks principles content).2.length = 5 := by
    have h := collectChecks_length principles content
    simpa [principles] using h
  rcases hcc : collectChecks principles content with ⟨hs, vs⟩
  rw [hcc] at hlen
  refine ⟨?_, ?_, ?_⟩
  · simp only [validateContent, hcc]
    cases vs with
    | nil => simp
    | cons v vt => simp
  · simp only [validateContent, hcc]
    exact hlen
  · intro h
    have hsub : ∀ (l : List String), (∀ p ∈ l, p ∈ allCheckerPatterns) →
        ∀ p ∈ l, strIn p (lowerStr content) = false :=
      fun l hl p hp => h p (hl p hp)
    have hAll : ∀ c ∈ principles, (c.2 content).1 = true := by
      intro c hc
      simp only [principles, List.mem_cons, List.not_mem_nil, or_false] at hc
      rcases hc with rfl | rfl | rfl | rfl | rfl
      · exact ahimsaValidate_pass (hsub _ (by
          intro p hp; simp only [allCheckerPatterns, List.mem_append] at hp ⊢; tauto))
      · exact satyaValidate_pass (hsub _ (by
          intro p hp; simp only [allCheckerPatterns, List.mem_append] at hp ⊢; tauto))
      · exact asteyaValidate_pass (hsub _ (by
          intro p hp; simp only [allCheckerPatterns, List.mem_append] at hp ⊢; tauto))
      · exact brahmacharyaValidate_pass (hsub _ (by
          intro p hp; simp only [allCheckerPatterns, List.mem_append] at hp ⊢; tauto))
      · exact aparigrahaValidate_pass (hsub _ (by
          intro p hp; simp only [allCheckerPatterns, List.mem_append] at hp ⊢; tauto))
    have hpass := collectChecks_all_pass principles content hAll
    rw [hcc] at hpass
    obtain ⟨hvs, hhs⟩ := hpass
    subst hvs
    simp only [validateContent, hcc]
    constructor
    · simp
    · simpa [principles] using hhs

/-- C4 witness: the content `hello` matches no checker pattern, so its
receipt is PASSED with all five principles in harmony. -/
theorem validate_content_verdict_spec_witness :
    (validateContent [] "hello" "story_synthesis" none ts0).1.validation_result = "PASSED"
      ∧ (validateContent [] "hello" "story_synthesis" none ts0).1.harmonies.length = 5 :=
  (validate_content_verdict_spec [] "hello" "story_synthesis" none ts0).2.2 (by decide)

theorem opReceipts_length (op : ValidatorOp) :
    (opReceipts op).length = receiptsAppended op := by
  cases op <;> rfl

theorem applyValidatorOp_eq (history : List Receipt) (op : ValidatorOp) :
    applyValidatorOp history op = history ++ opReceipts op := by
  cases op <;> simp [applyValidatorOp, opReceipts, validateContent,
    validateStorySynthesis, validateRecommendation]

/-- C8 (amended): `receipt_id` is a deterministic function of the first
100 characters of the content together with the timestamp: calls whose
contents agree on their first 100 characters and whose timestamps are
equal produce identical receipt ids (so a change confined to characters
beyond the first 100 cannot change the id). -/
theorem receipt_id_deterministic_in_prefix
    (c1 c2 t1 t2 : String) (hc : strTake c1 100 = strTake c2 100) (ht : t1 = t2) :
    generateReceiptId c1 t1 = generateReceiptId c2 t2 := by
  unfold generateReceiptId
  rw [hc, ht]

/-- C8 witness: two contents agreeing on their first 100 characters,
with equal timestamps, receive the same receipt id. -/
theorem receipt_id_deterministic_in_prefix_witness :
    generateReceiptId (aRun 101) ts0 = generateReceiptId (aRun 102) ts0 :=
  receipt_id_deterministic_in_prefix (aRun 101) (aRun 102) ts0 ts0 (by decide) rfl

/-- C8 counterexample: changing the content does not always change the
receipt id — a 101-character content and a different 102-character
content that share their first 100 characters hash to the same
`receipt_id` at the same timestamp, because `_generate_receipt_id` only
hashes `content[:100]` plus the timestamp. -/
theorem receipt_id_collision_beyond_prefix :
    aRun 101 ≠ aRun 102
      ∧ generateReceiptId (aRun 101) ts0 = generateReceiptId (aRun 102) ts0 := by
  constructor
  · decide
  · unfold generateReceiptId
    rw [show strTake (aRun 101) 100 = strTake (aRun 102) 100 from by decide]

/-- C9: the validator's audit log is append-only — each
`validate_content` call appends exactly its receipt at the end of the
history, and across any sequence of validator operations the history
grows by exactly the receipts of the validation calls, existing entries
untouched (so its length never decreases). -/
theorem audit_log_append_only :
    (∀ (history : List Receipt) (content content_type : String)
       (context : Option (List (String × CtxVal))) (timestamp : String),
      (validateContent history content content_type context timestamp).2
        = history ++ [(validateContent history content content_type context timestamp).1]) ∧
    (∀ (history : List Receipt) (ops : List ValidatorOp),
      List.foldl applyValidatorOp history ops = history ++ (ops.map opReceipts).flatten ∧
      (List.foldl applyValidatorOp history ops).length
        = history.length + (ops.map receiptsAppended).sum) := by
  constructor
  · intro history content content_type context timestamp
    simp [validateContent]
  · intro history ops
    induction ops generalizing history with
    | nil => simp
    | cons op rest ih =>
      have hstep := applyValidatorOp_eq history op
      have hrest := ih (applyValidatorOp history op)
      constructor
      · rw [List.foldl_cons, hrest.1, hstep]
        simp [List.append_assoc]
      · rw [List.foldl_cons, hrest.2, hstep]
        simp [List.length_append, opReceipts_length]
        omega

/-- C10: for every result value of a wrapped function, the
`constitutional_guard` wrapper returns that result unchanged, and the
`constitutional_receipt`-attachment branch is unreachable because no
value satisfies `isinstance(result, str)` and `isinstance(result, dict)`
at once; a FAILED validation receipt is only logged, never blocks. -/
theorem constitutional_guard_returns_unchanged :
    (∀ (content_type : String) (result : PyResult) (timestamp : String),
      constitutionalGuard content_type result timestamp = result) ∧
    (∀ result : PyResult, (result.isinstanceStr && result.isinstanceDict) = false) := by
  constructor
  · intro ct result ts
    cases result <;>
      simp [constitutionalGuard, PyResult.isinstanceStr, PyResult.isinstanceDict]
  · intro result
    cases result <;> rfl

/-- C1 (amended): `scan_report` never propagates a failure.  A transport
error produces the conservative fallback verdict with the error text
embedded in `overall_assessment` (and in `error`); a malformed/non-JSON
response produces the conservative fallback verdict whose
`overall_assessment` is the fixed parse-failure message while the error
text is recorded in the `error` field.  Both fallbacks carry
`risk_level = CAUTION`, `requires_human_review = true`,
`auto_safe_delivery = false`. -/
theorem scan_report_conservative_fallback
    (parseJson : String → Except String HarmAnalysis) (mode : JourneyMode)
    (now raw e : String) :
    ((scanReport parseJson mode (.transportError e) now).risk_level = some "CAUTION" ∧
     (scanReport parseJson mode (.transportError e) now).requires_human_review = some true ∧
     (scanReport parseJson mode (.transportError e) now).auto_safe_delivery = some false ∧
     (scanReport parseJson mode (.transportError e) now).overall_assessment
       = some ("Harm detection error: " ++ e) ∧
     (scanReport parseJson mode (.transportError e) now).error = some e) ∧
    (parseJson (extractJsonText raw) = .error e →
     (scanReport parseJson mode (.response raw) now).risk_level = some "CAUTION" ∧
     (scanReport parseJson mode (.response raw) now).requires_human_review = some true ∧
     (scanReport parseJson mode (.response raw) now).auto_safe_delivery = some false ∧
     (scanReport parseJson mode (.response raw) now).overall_assessment
       = some "Unable to parse LLM analysis - requires human review" ∧
     (scanReport parseJson mode (.response raw) now).error = some e) := by
  refine ⟨⟨rfl, rfl, rfl, rfl, rfl⟩, ?_⟩
  intro hp
  simp [scanReport, hp]

/-- C1 witness: `json.loads` failing on the plain-text response yields
the conservative parse-failure fallback. -/
theorem scan_report_conservative_fallback_witness :
    (scanReport failingParse JourneyMode.medical
       (.response "I cannot analyze this report.") ts0).risk_level = some "CAUTION" ∧
    (scanReport failingParse JourneyMode.medical
       (.response "I cannot analyze this report.") ts0).requires_human_review = some true ∧
    (scanReport failingParse JourneyMode.medical
       (.response "I cannot analyze this report.") ts0).auto_safe_delivery = some false ∧
    (scanReport failingParse JourneyMode.medical
       (.response "I cannot analyze this report.") ts0).overall_assessment
      = some "Unable to parse LLM analysis - requires human review" ∧
    (scanReport failingParse JourneyMode.medical
       (.response "I cannot analyze this report.") ts0).error = some jsonErrMsg :=
  (scan_report_conservative_fallback failingParse JourneyMode.medical ts0
    "I cannot analyze this report." jsonErrMsg).2 rfl

/-- C1 counterexample: on a malformed (non-JSON) judge response the
returned fallback does have CAUTION / review-required / no-auto-delivery,
but its `overall_assessment` is the fixed message `Unable to parse LLM
analysis - requires human review`, which does not embed the error text
(the `json.JSONDecodeError` message lands in the `error` field instead). -/
theorem scan_report_parse_error_not_in_assessment :
    (scanReport failingParse JourneyMode.medical
       (.response "I cannot analyze this report.") ts0).risk_level = some "CAUTION" ∧
    strIn jsonErrMsg
      ((scanReport failingParse JourneyMode.medical
         (.response "I cannot analyze this report.") ts0).overall_assessment.getD "")
      = false := by
  refine ⟨rfl, ?_⟩
  decide

/-- C2: the routing decision of `submit_report_for_review` is evaluated
in priority order — an admin caller always yields APPROVED with
`admin_bypass = true` regardless of the verdict; otherwise a verdict with
`auto_safe_delivery = true` and `requires_human_review = false` yields
APPROVED with `reviewer_id` left null; otherwise the record is PENDING. -/
theorem submit_report_routing_priority
    (harm_analysis : HarmAnalysis) (user_role report_id session_id : String)
    (user_id : Nat) (report_html : String) (mode : JourneyMode)
    (fragments : List Fragment) (session_data : SessionData) (r : ReportReview)
    (hr : r = submitReportForReview harm_analysis user_role report_id session_id user_id
      report_html mode fragments session_data) :
    (user_role = "admin" → r.status = ReviewStatus.approved.value ∧ r.admin_bypass = true) ∧
    (user_role ≠ "admin" → harm_analysis.auto_safe_delivery.getD false = true →
      harm_analysis.requires_human_review.getD true = false →
      r.status = ReviewStatus.approved.value ∧ r.reviewer_id = none) ∧
    (user_role ≠ "admin" →
      (harm_analysis.auto_safe_delivery.getD false = false
        ∨ harm_analysis.requires_human_review.getD true = true) →
      r.status = ReviewStatus.pending.value) := by
  subst hr
  refine ⟨?_, ?_, ?_⟩
  · intro h
    subst h
    simp [submitReportForReview]
  · intro hrole hsafe hreq
    have h1 : (user_role == "admin") = false := beq_eq_false_iff_ne.mpr hrole
    simp [submitReportForReview, h1, hsafe, hreq]
  · intro hrole hflag
    have h1 : (user_role == "admin") = false := beq_eq_false_iff_ne.mpr hrole
    rcases hflag with hf | ht
    · simp [submitReportForReview, h1, hf]
    · simp [submitReportForReview, h1, ht]

/-- C2 witness: an admin submission of a DANGEROUS-rated report is
auto-approved with the admin bypass flag set. -/
theorem submit_report_routing_priority_witness :
    (submitReportForReview dangerousAutoSafeVerdict "admin" "RPT_3" "sess3" 3 "<p>r</p>"
       JourneyMode.medical [] {}).status = ReviewStatus.approved.value ∧
    (submitReportForReview dangerousAutoSafeVerdict "admin" "RPT_3" "sess3" 3 "<p>r</p>"
       JourneyMode.medical [] {}).admin_bypass = true :=
  (submit_report_routing_priority dangerousAutoSafeVerdict "admin" "RPT_3" "sess3" 3
    "<p>r</p>" JourneyMode.medical [] {} _ rfl).1 rfl

/-- C3 (amended): a submission by a non-admin caller whose verdict has
`auto_safe_delivery` false or `requires_human_review` true — as every
DANGEROUS or CAUTION verdict does under the judge's stated decision rules
— yields a PENDING record.  The routing inspects only these two booleans;
it never reads `risk_level` itself. -/
theorem nonadmin_unsafe_verdict_queued
    (harm_analysis : HarmAnalysis) (user_role report_id session_id : String)
    (user_id : Nat) (report_html : String) (mode : JourneyMode)
    (fragments : List Fragment) (session_data : SessionData)
    (hrole : user_role ≠ "admin")
    (hflag : harm_analysis.auto_safe_delivery.getD false = false
      ∨ harm_analysis.requires_human_review.getD true = true) :
    (submitReportForReview harm_analysis user_role report_id session_id user_id
      report_html mode fragments session_data).status = ReviewStatus.pending.value := by
  have h1 : (user_role == "admin") = false := beq_eq_false_iff_ne.mpr hrole
  rcases hflag with hf | ht
  · simp [submitReportForReview, h1, hf]
  · simp [submitReportForReview, h1, ht]

/-- C3 witness: a non-admin submission with a CAUTION verdict
(review-required, not auto-safe) is queued as PENDING. -/
theorem nonadmin_unsafe_verdict_queued_witness :
    (submitReportForReview cautionVerdict "user" "RPT_4" "sess4" 4 "<p>r</p>"
      JourneyMode.preventive [] {}).status = ReviewStatus.pending.value :=
  nonadmin_unsafe_verdict_queued cautionVerdict "user" "RPT_4" "sess4" 4 "<p>r</p>"
    JourneyMode.preventive [] {} (by decide) (Or.inl rfl)

/-- C3 counterexample: the harm judge is trusted verbatim, so a verdict
that self-reports `risk_level = DANGEROUS` while also claiming
`auto_safe_delivery = true` and `requires_human_review = false` is
APPROVED for a non-admin caller, not routed to the PENDING queue. -/
theorem dangerous_autosafe_verdict_approved :
    (submitReportForReview dangerousAutoSafeVerdict "user" "RPT_9" "sess9" 9 "<p>r</p>"
       JourneyMode.medical [] {}).risk_level = "DANGEROUS" ∧
    (submitReportForReview dangerousAutoSafeVerdict "user" "RPT_9" "sess9" 9 "<p>r</p>"
       JourneyMode.medical [] {}).status = ReviewStatus.approved.value ∧
    (submitReportForReview dangerousAutoSafeVerdict "user" "RPT_9" "sess9" 9 "<p>r</p>"
       JourneyMode.medical [] {}).status ≠ ReviewStatus.pending.value := by
  refine ⟨rfl, rfl, ?_⟩
  decide

theorem find?_commit_of_ne (l : List ReportReview) (rid : String) (upd r : ReportReview)
    (hne : upd.report_id ≠ rid)
    (hf : l.find? (fun x => x.report_id == rid) = some r) :
    (l.map (fun x => if x.report_id == upd.report_id then upd else x)).find?
      (fun x => x.report_id == rid) = some r := by
  induction l with
  | nil => simp at hf
  | cons a t ih =>
    simp only [List.map_cons]
    by_cases ha : a.report_id = rid
    · have hpa : (a.report_id == rid) = true := beq_iff_eq.mpr ha
      simp only [List.find?, hpa] at hf
      have hau : (a.report_id == upd.report_id) = false :=
        beq_eq_false_iff_ne.mpr (fun hh => hne (hh.symm.trans ha))
      simp only [hau, Bool.false_eq_true, if_false, List.find?, hpa]
      exact hf
    · have hpa : (a.report_id == rid) = false := beq_eq_false_iff_ne.mpr ha
      simp only [List.find?, hpa] at hf
      by_cases hau : a.report_id = upd.report_id
      · have hbu : (a.report_id == upd.report_id) = true := beq_iff_eq.mpr hau
        have hpu : (upd.report_id == rid) = false := beq_eq_false_iff_ne.mpr hne
        simp only [hbu, if_true, List.find?, hpu]
        exact ih hf
      · have hbu : (a.report_id == upd.report_id) = false := beq_eq_false_iff_ne.mpr hau
        simp only [hbu, Bool.false_eq_true, if_false, List.find?, hpa]
        exact ih hf

theorem find?_commit_self (l : List ReportReview) (rid : String) (upd r : ReportReview)
    (hid : upd.report_id = rid)
    (hf : l.find? (fun x => x.report_id == rid) = some r) :
    (l.map (fun x => if x.report_id == upd.report_id then upd else x)).find?
      (fun x => x.report_id == rid) = some upd := by
  induction l with
  | nil => simp at hf
  | cons a t ih =>
    simp only [List.map_cons]
    by_cases ha : a.report_id = rid
    · have hau : (a.report_id == upd.report_id) = true :=
        beq_iff_eq.mpr (by rw [ha, hid])
      have hpu : (upd.report_id == rid) = true := beq_iff_eq.mpr hid
      simp only [hau, if_true, List.find?, hpu]
    · have hpa : (a.report_id == rid) = false := beq_eq_false_iff_ne.mpr ha
      simp only [List.find?, hpa] at hf
      have hau : (a.report_id == upd.report_id) = false :=
        beq_eq_false_iff_ne.mpr (by rw [hid]; exact ha)
      simp only [hau, Bool.false_eq_true, if_false, List.find?, hpa]
      exact ih hf

theorem submitReviewerDecision_ok_inv (s : QueueState) (rid : String) (a : Nat)
    (d n : String) (t : Nat) (s2 : QueueState) (r2 : ReportReview)
    (h : submitReviewerDecision s rid a d n t = .ok (s2, r2)) :
    ∃ r, getReviewById s rid = some r ∧ r.status = ReviewStatus.pending.value ∧
      r2.report_id = rid ∧ r2.status ≠ ReviewStatus.pending.value ∧
      s2 = commitReview s r2 := by
  unfold submitReviewerDecision at h
  split at h
  · exact absurd h (by simp)
  · rename_i r hg
    have hfr : (fun (x : ReportReview) => x.report_id == rid) r = true :=
      @List.find?_some _ (fun (x : ReportReview) => x.report_id == rid) r s.reviews hg
    have hrid : r.report_id = rid := beq_iff_eq.mp hfr
    split at h
    · exact absurd h (by simp)
    · rename_i hb
      have hpend : r.status = ReviewStatus.pending.value := by
        simpa using hb
      refine ⟨r, hg, hpend, ?_⟩
      split at h
      · simp only [Except.ok.injEq, Prod.mk.injEq] at h
        obtain ⟨hs2, hr2⟩ := h
        subst hr2
        refine ⟨by simpa using hrid, ?_, hs2.symm⟩
        show ReviewStatus.approved.value ≠ ReviewStatus.pending.value
        decide
      · split at h
        · simp only [Except.ok.injEq, Prod.mk.injEq] at h
          obtain ⟨hs2, hr2⟩ := h
          subst hr2
          refine ⟨by simpa using hrid, ?_, hs2.symm⟩
          show ReviewStatus.rejected.value ≠ ReviewStatus.pending.value
          decide
        · split at h
          · simp only [Except.ok.injEq, Prod.mk.injEq] at h
            obtain ⟨hs2, hr2⟩ := h
            subst hr2
            refine ⟨by simpa using hrid, ?_, hs2.symm⟩
            show ReviewStatus.revision_requested.value ≠ ReviewStatus.pending.value
            decide
          · exact absurd h (by simp)

theorem applyQueueOp_keeps_settled (s : QueueState) (op : QueueOp) (rid : String)
    (r : ReportReview) (hfind : getReviewById s rid = some r)
    (hst : r.status ≠ ReviewStatus.pending.value) :
    getReviewById (applyQueueOp s op) rid = some r := by
  cases op with
  | submitReport harm role rid' sid uid html m fr sd =>
    by_cases hany : (s.reviews.any fun x => x.report_id == rid') = true
    · simpa [applyQueueOp, submitReportOp, hany] using hfind
    · simp only [Bool.not_eq_true] at hany
      simp only [applyQueueOp, submitReportOp, hany, Bool.false_eq_true, if_false]
      unfold getReviewById at hfind ⊢
      simp only [List.find?_append, hfind, Option.or_some]
  | reviewerDecision rid' a d n t =>
    cases hg : submitReviewerDecision s rid' a d n t with
    | error e => simpa [applyQueueOp, hg] using hfind
    | ok p =>
      obtain ⟨s2, r2⟩ := p
      obtain ⟨rv, hgrv, hpend, hr2id, _, hs2⟩ :=
        submitReviewerDecision_ok_inv s rid' a d n t s2 r2 hg
      simp only [applyQueueOp, hg]
      subst hs2
      have hne : r2.report_id ≠ rid := by
        rw [hr2id]
        intro hh
        subst hh
        rw [hfind] at hgrv
        have hrv : r = rv := by injection hgrv
        exact hst (hrv ▸ hpend)
      unfold getReviewById commitReview
      unfold getReviewById at hfind
      exact find?_commit_of_ne s.reviews rid r2 r hne hfind

/-- C5: `submit_reviewer_decision` fails with 404 NotFound on an unknown
report id and with 400 InvalidState on a record no longer PENDING; on a
PENDING record with decision approve/reject/revise it stamps
`reviewer_id`, `reviewed_at`, `reviewer_notes`, `reviewer_decision` and
maps the decision to APPROVED / REJECTED / REVISION_REQUESTED. -/
theorem submit_reviewer_decision_spec
    (s : QueueState) (rid : String) (a : Nat) (d n : String) (t : Nat) :
    (getReviewById s rid = none →
      submitReviewerDecision s rid a d n t = .error ⟨404, "Report not found"⟩) ∧
    (∀ r, getReviewById s rid = some r → r.status ≠ ReviewStatus.pending.value →
      submitReviewerDecision s rid a d n t = .error ⟨400, "Report already reviewed"⟩) ∧
    (∀ r, getReviewById s rid = some r → r.status = ReviewStatus.pending.value →
      ((d = "approve" →
        submitReviewerDecision s rid a d n t
          = .ok (commitReview s (stampedReview r a t n d ReviewStatus.approved.value),
                 stampedReview r a t n d ReviewStatus.approved.value)) ∧
       (d = "reject" →
        submitReviewerDecision s rid a d n t
          = .ok (commitReview s (stampedReview r a t n d ReviewStatus.rejected.value),
                 stampedReview r a t n d ReviewStatus.rejected.value)) ∧
       (d = "revise" →
        submitReviewerDecision s rid a d n t
          = .ok (commitReview s (stampedReview r a t n d ReviewStatus.revision_requested.value),
                 stampedReview r a t n d ReviewStatus.revision_requested.value)))) := by
  refine ⟨?_, ?_, ?_⟩
  · intro hg
    unfold submitReviewerDecision
    rw [hg]
  · intro r hg hst
    unfold submitReviewerDecision
    rw [hg]
    have hb : (r.status != ReviewStatus.pending.value) = true := by simp [hst]
    simp [hb]
  · intro r hg hpend
    have hb : (r.status != ReviewStatus.pending.value) = false := by simp [hpend]
    refine ⟨?_, ?_, ?_⟩ <;> intro hd <;> subst hd <;>
      · unfold submitReviewerDecision
        rw [hg]
        simp [hb, stampedReview]

/-- C5 witness: approving the pending example record stamps it and sets
APPROVED. -/
theorem submit_reviewer_decision_spec_witness :
    submitReviewerDecision queue0 "RPT_1" 7 "approve" "looks fine" 5
      = .ok (commitReview queue0
               (stampedReview pendingReview 7 5 "looks fine" "approve" ReviewStatus.approved.value),
             stampedReview pendingReview 7 5 "looks fine" "approve" ReviewStatus.approved.value) :=
  ((submit_reviewer_decision_spec queue0 "RPT_1" 7 "approve" "looks fine" 5).2.2
    pendingReview (by rfl) (by rfl)).1 rfl

/-- C6: once a review record's status has left PENDING the record never
changes under any further sequence of queue operations (APPROVED,
REJECTED and REVISION_REQUESTED are terminal), and a reviewer decision
succeeds at most once per record — after one success, any further
decision on the same id fails with the InvalidState error. -/
theorem review_status_terminal_and_single_decision :
    (∀ (s : QueueState) (rid : String) (r : ReportReview) (ops : List QueueOp),
      getReviewById s rid = some r → r.status ≠ ReviewStatus.pending.value →
      getReviewById (List.foldl applyQueueOp s ops) rid = some r) ∧
    (∀ (s : QueueState) (rid : String) (a : Nat) (d n : String) (t : Nat)
       (s2 : QueueState) (r2 : ReportReview) (a' : Nat) (d' n' : String) (t' : Nat),
      submitReviewerDecision s rid a d n t = .ok (s2, r2) →
      submitReviewerDecision s2 rid a' d' n' t' = .error ⟨400, "Report already reviewed"⟩) := by
  constructor
  · intro s rid r ops
    induction ops generalizing s with
    | nil => intro hfind _; simpa using hfind
    | cons op rest ih =>
      intro hfind hst
      rw [List.foldl_cons]
      exact ih (applyQueueOp s op) (applyQueueOp_keeps_settled s op rid r hfind hst) hst
  · intro s rid a d n t s2 r2 a' d' n' t' h
    obtain ⟨rv, hgrv, _, hr2id, hr2st, hs2⟩ :=
      submitReviewerDecision_ok_inv s rid a d n t s2 r2 h
    subst hs2
    have hfind2 : getReviewById (commitReview s r2) rid = some r2 := by
      unfold getReviewById commitReview
      unfold getReviewById at hgrv
      exact find?_commit_self s.reviews rid r2 rv hr2id hgrv
    unfold submitReviewerDecision
    rw [hfind2]
    have hb : (r2.status != ReviewStatus.pending.value) = true := by simp [hr2st]
    simp [hb]

/-- C6 witness: a rejection attempt on the already-approved example
record leaves it untouched. -/
theorem review_status_terminal_and_single_decision_witness :
    getReviewById
      (List.foldl applyQueueOp queue0 [QueueOp.reviewerDecision "RPT_2" 7 "reject" "again" 9])
      "RPT_2" = some approvedReview :=
  review_status_terminal_and_single_decision.1 queue0 "RPT_2" approvedReview
    [QueueOp.reviewerDecision "RPT_2" 7 "reject" "again" 9] (by rfl) (by decide)

/-- C7: on a PENDING record, a decision outside approve/reject/revise
fails with the InvalidArgument error and leaves the committed record
unchanged — the state is untouched, the record is still found with its
PENDING status and its reviewer fields still unset (the session-local
stamping is rolled back, never committed). -/
theorem invalid_decision_error_leaves_record
    (s : QueueState) (rid : String) (a : Nat) (d n : String) (t : Nat) (r : ReportReview)
    (hg : getReviewById s rid = some r) (hpend : r.status = ReviewStatus.pending.value)
    (h1 : d ≠ "approve") (h2 : d ≠ "reject") (h3 : d ≠ "revise") :
    submitReviewerDecision s rid a d n t = .error ⟨400, "Invalid decision"⟩ ∧
    applyQueueOp s (QueueOp.reviewerDecision rid a d n t) = s ∧
    getReviewById (applyQueueOp s (QueueOp.reviewerDecision rid a d n t)) rid = some r := by
  have herr : submitReviewerDecision s rid a d n t = .error ⟨400, "Invalid decision"⟩ := by
    unfold submitReviewerDecision
    rw [hg]
    have hb : (r.status != ReviewStatus.pending.value) = false := by simp [hpend]
    have hb1 : (d == "approve") = false := beq_eq_false_iff_ne.mpr h1
    have hb2 : (d == "reject") = false := beq_eq_false_iff_ne.mpr h2
    have hb3 : (d == "revise") = false := beq_eq_false_iff_ne.mpr h3
    simp [hb, hb1, hb2, hb3]
  have hstate : applyQueueOp s (QueueOp.reviewerDecision rid a d n t) = s := by
    simp [applyQueueOp, herr]
  exact ⟨herr, hstate, by rw [hstate]; exact hg⟩

/-- C7 witness: the decision value `maybe` on the pending example record
is rejected as invalid and the table is unchanged. -/
theorem invalid_decision_error_leaves_record_witness :
    submitReviewerDecision queue0 "RPT_1" 7 "maybe" "hm" 5 = .error ⟨400, "Invalid decision"⟩ ∧
    applyQueueOp queue0 (QueueOp.reviewerDecision "RPT_1" 7 "maybe" "hm" 5) = queue0 ∧
    getReviewById (applyQueueOp queue0 (QueueOp.reviewerDecision "RPT_1" 7 "maybe" "hm" 5))
      "RPT_1" = some pendingReview :=
  invalid_decision_error_leaves_record queue0 "RPT_1" 7 "maybe" "hm" 5 pendingReview
    (by rfl) (by rfl) (by decide) (by decide) (by decide)

end Scope
